import Mathlib

/-!
# Verification of the single-page upload/prompt client (`src/app/page.tsx`)

A shallow embedding of the request-lifecycle core of the page component:

* the base64 encoding performed by `Buffer.from(bytes).toString("base64")`,
  together with a decoder, to state round-trip fidelity of the payload
  contents;
* the `handleProcessing` submit handler, modelled as the ordered list of
  state-setter effects it performs (`setLoading` / `setError` /
  `setResponse`) plus the list of `sendMessage` invocations it issues; the
  external `sendMessage` collaborator is an explicit function parameter
  `remote`, since the handler only observes its resolved value or its
  thrown error;
* the reachable-state machine of the page: React state (`response`,
  `error`, `loading`, `formData`), the uncontrolled prompt input's DOM
  value (the `<input name="prompt">` carries no `value` prop, so its
  displayed text is only synchronised with `formData.prompt` by the
  `onChange` handler), and the multiset of outstanding `sendMessage`
  calls.  Events are gated exactly as the markup gates them: the prompt
  input, the file inputs and the submit button carry `disabled={loading}`
  and the drop handler checks `!loading`, while the Clear button is never
  disabled; the form submit fires only when the DOM prompt value is
  non-empty (the `required` attribute).
-/

/-! ## Base64 (`Buffer.toString("base64")` / its inverse) -/

/-- The standard base64 alphabet, as used by Node's `Buffer`. -/
def b64Alphabet : List Char :=
  "ABCDEFGHIJKLMNOPQRSTUVWXYZabcdefghijklmnopqrstuvwxyz0123456789+/".data

/-- The base64 digit character for a 6-bit value. -/
def b64Char (n : Nat) : Char :=
  b64Alphabet.getD n 'A'

/-- The 6-bit value of a base64 digit character (64 for a non-digit). -/
def b64Val (c : Char) : Nat :=
  b64Alphabet.indexOf c

/-- Encode a byte list three bytes at a time into base64 digits, padding
the final partial group with the pad character, exactly as
`Buffer.toString("base64")` does. -/
def encodeGroups : List Nat → List Char
  | [] => []
  | [a] => [b64Char (a / 4), b64Char (a % 4 * 16), '=', '=']
  | [a, b] => [b64Char (a / 4), b64Char (a % 4 * 16 + b / 16), b64Char (b % 16 * 4), '=']
  | a :: b :: c :: rest =>
      b64Char (a / 4) :: b64Char (a % 4 * 16 + b / 16) ::
      b64Char (b % 16 * 4 + c / 64) :: b64Char (c % 64) :: encodeGroups rest

/-- Decode base64 digits four characters at a time back into bytes,
honouring the pad character. -/
def decodeGroups : List Char → List Nat
  | c1 :: c2 :: c3 :: c4 :: rest =>
      if c3 = '=' then [b64Val c1 * 4 + b64Val c2 / 16]
      else if c4 = '=' then
        [b64Val c1 * 4 + b64Val c2 / 16, b64Val c2 % 16 * 16 + b64Val c3 / 4]
      else
        (b64Val c1 * 4 + b64Val c2 / 16) :: (b64Val c2 % 16 * 16 + b64Val c3 / 4) ::
        (b64Val c3 % 4 * 64 + b64Val c4) :: decodeGroups rest
  | _ => []

/-- `Buffer.from(bytes).toString("base64")`. -/
def base64Encode (bs : List Nat) : String :=
  String.mk (encodeGroups bs)

/-- Inverse of `base64Encode`. -/
def base64Decode (s : String) : List Nat :=
  decodeGroups s.data

/-! ## Data model (`page.tsx` interfaces and the `vertex` payload shape) -/

/-- A selected `File`: its name, its declared MIME type, and the byte
contents its `arrayBuffer()` yields (each byte below 256). -/
structure FileVal where
  name : String
  type : String
  bytes : List Nat
  deriving Repr, DecidableEq

/-- `interface FormData { file: File | null; prompt: string }`. -/
structure FormData where
  file : Option FileVal
  prompt : String
  deriving Repr, DecidableEq

/-- The `file` field of the composed payload:
`{ contents: base64 string, type: MIME string }`. -/
structure FilePart where
  contents : String
  type : String
  deriving Repr, DecidableEq

/-- `MessageData`, the payload handed to `sendMessage`, as constructed by
the object literal in `handleProcessing`. -/
structure MessageData where
  file : FilePart
  prompt : String
  deriving Repr, DecidableEq

/-- The payload `handleProcessing` composes from the selected file and the
prompt: contents are the base64 encoding of the file bytes, the type is the
file's declared MIME type. -/
def mkPayload (f : FileVal) (prompt : String) : MessageData :=
  { file := { contents := base64Encode f.bytes, type := f.type }, prompt := prompt }

/-- A JavaScript exception value, as observed through the template-string
conversion the catch block applies. -/
inductive JsError where
  | errObj (name message : String)
  | primitive (s : String)
  deriving Repr, DecidableEq

/-- JavaScript string conversion of a thrown value: an `Error` object
stringifies to "name: message"; any other value to its own string form. -/
def jsErrorToString : JsError → String
  | .errObj n m => n ++ ": " ++ m
  | .primitive s => s

/-! ## The submit handler `handleProcessing` -/

/-- The React component state of `Home` that the handler's setters touch,
together with the `formData` state the handler reads. -/
structure UIState where
  response : Option String
  error : Option String
  loading : Bool
  formData : FormData
  deriving Repr, DecidableEq

/-- One state-setter call performed by `handleProcessing`. -/
inductive Eff where
  | setLoading (b : Bool)
  | setError (e : Option String)
  | setResponse (r : String)
  deriving Repr, DecidableEq

/-- Apply one setter to the component state. -/
def applyEff (s : UIState) : Eff → UIState
  | .setLoading b => { s with loading := b }
  | .setError e => { s with error := e }
  | .setResponse r => { s with response := some r }

/-- The `sendMessage` invocations one run of `handleProcessing` issues,
given the `formData` it closes over: none on the early-return path, and
exactly one composed payload otherwise. -/
def handlerCalls (fd : FormData) : List MessageData :=
  match fd.file with
  | none => []
  | some f => [mkPayload f fd.prompt]

/-- The ordered state-setter effects of one run of `handleProcessing`:
`setLoading(true)`, then `setError(null)`, then either the early-return
validation error, or the outcome of `await sendMessage` (`remote` stands
for the external `sendMessage`, yielding either its resolved text or its
thrown error); the `finally` block appends `setLoading(false)` on every
path. -/
def handlerEffects (remote : MessageData → Except JsError String) (fd : FormData) : List Eff :=
  Eff.setLoading true :: Eff.setError none ::
    (match fd.file with
     | none => [Eff.setError (some "No file specified"), Eff.setLoading false]
     | some f =>
        match remote (mkPayload f fd.prompt) with
        | .ok r => [Eff.setResponse r, Eff.setLoading false]
        | .error e => [Eff.setError (some (jsErrorToString e)), Eff.setLoading false])

/-- The component state after one complete run of `handleProcessing`. -/
def handleProcessing (remote : MessageData → Except JsError String) (s : UIState) : UIState :=
  (handlerEffects remote s.formData).foldl applyEff s

/-- The markdown source the page hands to `ReactMarkdown` (rendered only
when `response` is non-null, and then it is exactly `response`). -/
def displayedMarkdownSource (s : UIState) : Option String :=
  s.response

/-- The message the error alert displays (shown only when `error` is
non-null, and then it is exactly `error`). -/
def displayedError (s : UIState) : Option String :=
  s.error

/-! ## The page as an event system -/

/-- The whole observable page state: the React component state, the DOM
value of the uncontrolled prompt input (the input carries no `value`
prop, so the Clear button does not reset its displayed text), and the
outstanding `sendMessage` calls awaiting resolution. -/
structure Sys where
  ui : UIState
  domPrompt : String
  inflight : List MessageData
  deriving Repr, DecidableEq

/-- User-visible events of the page.  `submit` runs the synchronous prefix
of `handleProcessing` (through validation, payload composition and the
issuing of `sendMessage`); `resolve` delivers the settled result of the
oldest outstanding call and runs the rest of the handler. -/
inductive Event where
  | typePrompt (t : String)
  | dropFile (f : FileVal)
  | clearClick
  | submit
  | resolve (r : Except JsError String)
  deriving Repr

/-- The initial state of `Home`: `useState(null)`, `useState(null)`,
`useState(false)`, `useState({file: null, prompt: ""})`, an empty prompt
input, no call outstanding. -/
def initSys : Sys :=
  { ui := { response := none, error := none, loading := false,
            formData := { file := none, prompt := "" } },
    domPrompt := "", inflight := [] }

/-- One event step of the page.  `none` means the event cannot fire in
this state (a disabled control, failed constraint validation, or no call
to resolve).

* `typePrompt` — `onChange` of the prompt input (`disabled={loading}`):
  updates the DOM value and `formData.prompt` together.
* `dropFile` — `handleFileChange` via the drop zone or the hidden file
  input (both gated on `!loading`): sets `formData.file`.
* `clearClick` — the Clear button (never disabled):
  `setFormData({file: null, prompt: ""})`; it touches neither `response`,
  `error`, `loading` nor the DOM input value.
* `submit` — the form's `onSubmit` (the submit button carries
  `disabled={loading}`, and the browser's `required` validation blocks
  submission while the DOM prompt value is empty): with no file selected
  the handler sets the validation error and returns; otherwise it sets
  `loading`, clears `error` and issues `sendMessage` with the payload
  composed from the closed-over `formData`.
* `resolve` — settlement of an outstanding `sendMessage`: on success
  `setResponse`, on failure `setError` with the stringified error; the
  `finally` block resets `loading`. -/
def step (s : Sys) : Event → Option Sys
  | .typePrompt t =>
      if s.ui.loading then none
      else some { s with domPrompt := t,
                         ui := { s.ui with formData := { s.ui.formData with prompt := t } } }
  | .dropFile f =>
      if s.ui.loading then none
      else some { s with ui := { s.ui with formData := { s.ui.formData with file := some f } } }
  | .clearClick =>
      some { s with ui := { s.ui with formData := { file := none, prompt := "" } } }
  | .submit =>
      if s.ui.loading then none
      else if s.domPrompt = "" then none
      else
        match s.ui.formData.file with
        | none =>
            some { s with ui := { s.ui with error := some "No file specified", loading := false } }
        | some f =>
            some { s with inflight := s.inflight ++ [mkPayload f s.ui.formData.prompt],
                          ui := { s.ui with loading := true, error := none } }
  | .resolve r =>
      match s.inflight with
      | [] => none
      | _ :: rest =>
          match r with
          | .ok t =>
              some { s with inflight := rest,
                            ui := { s.ui with response := some t, loading := false } }
          | .error e =>
              some { s with inflight := rest,
                            ui := { s.ui with error := some (jsErrorToString e), loading := false } }

/-- States reachable from the initial render by user events and call
settlements. -/
inductive Reachable : Sys → Prop where
  | refl : Reachable initSys
  | tail {s s' : Sys} {e : Event} : Reachable s → step s e = some s' → Reachable s'

/-- The submit button's `disabled` attribute: `disabled={loading}`. -/
def submitDisabled (s : Sys) : Bool :=
  s.ui.loading

/-! ## Helper lemmas: base64 round trip -/

/-- Decoding a base64 digit character recovers its 6-bit value. -/
theorem b64Val_b64Char : ∀ n, n < 64 → b64Val (b64Char n) = n := by decide

/-- A base64 digit character is never the pad character. -/
theorem b64Char_ne_pad : ∀ n, n < 64 → b64Char n ≠ '=' := by decide

/-- Group-level round trip: decoding the encoded groups of a byte list
recovers the byte list. -/
theorem decodeGroups_encodeGroups (bs : List Nat) (h : ∀ b ∈ bs, b < 256) :
    decodeGroups (encodeGroups bs) = bs := by
  induction bs using encodeGroups.induct with
  | case1 => simp [encodeGroups, decodeGroups]
  | case2 a =>
      have ha : a < 256 := h a (by simp)
      simp only [encodeGroups, decodeGroups]
      simp only [if_true]
      rw [b64Val_b64Char (a / 4) (by omega), b64Val_b64Char (a % 4 * 16) (by omega)]
      simp only [List.cons.injEq, and_true]
      omega
  | case3 a b =>
      have ha : a < 256 := h a (by simp)
      have hb : b < 256 := h b (by simp)
      simp only [encodeGroups, decodeGroups]
      rw [if_neg (b64Char_ne_pad (b % 16 * 4) (by omega))]
      simp only [if_true]
      rw [b64Val_b64Char (a / 4) (by omega), b64Val_b64Char (a % 4 * 16 + b / 16) (by omega),
        b64Val_b64Char (b % 16 * 4) (by omega)]
      simp only [List.cons.injEq, and_true]
      omega
  | case4 a b c rest ih =>
      have ha : a < 256 := h a (by simp)
      have hb : b < 256 := h b (by simp)
      have hc : c < 256 := h c (by simp)
      simp only [encodeGroups, decodeGroups]
      rw [if_neg (b64Char_ne_pad (b % 16 * 4 + c / 64) (by omega)),
        if_neg (b64Char_ne_pad (c % 64) (by omega))]
      rw [b64Val_b64Char (a / 4) (by omega), b64Val_b64Char (a % 4 * 16 + b / 16) (by omega),
        b64Val_b64Char (b % 16 * 4 + c / 64) (by omega), b64Val_b64Char (c % 64) (by omega)]
      rw [ih (by intro x hx; exact h x (by simp [hx]))]
      simp only [List.cons.injEq, and_true]
      omega

/-! ## Helper lemmas: reachable-state invariant -/

/-- The inductive invariant of the page's event system: the loading flag
is set exactly while a call is outstanding, at most one call is ever
outstanding, and no error message is displayed while loading. -/
def SysInv (s : Sys) : Prop :=
  (s.ui.loading = true ↔ s.inflight ≠ []) ∧
  s.inflight.length ≤ 1 ∧
  (s.ui.loading = true → s.ui.error = none)

theorem sysInv_initSys : SysInv initSys := by
  simp [SysInv, initSys]

theorem sysInv_step {s s' : Sys} {e : Event} (hs : SysInv s) (h : step s e = some s') :
    SysInv s' := by
  obtain ⟨h1, h2, h3⟩ := hs
  cases e with
  | typePrompt t =>
      by_cases hl : s.ui.loading = true
      · simp [step, hl] at h
      · have hempty : s.inflight = [] := by
          by_contra hne
          exact hl (h1.mpr hne)
        simp only [step, hl, Bool.false_eq_true, if_false, if_neg, Option.some.injEq] at h
        subst h
        exact ⟨by simp [hempty], by simpa using h2, by simp⟩
  | dropFile f =>
      by_cases hl : s.ui.loading = true
      · simp [step, hl] at h
      · have hempty : s.inflight = [] := by
          by_contra hne
          exact hl (h1.mpr hne)
        simp only [step, hl, Bool.false_eq_true, if_false, if_neg, Option.some.injEq] at h
        subst h
        exact ⟨by simp [hempty], by simpa using h2, by simp⟩
  | clearClick =>
      simp only [step, Option.some.injEq] at h
      subst h
      exact ⟨h1, h2, h3⟩
  | submit =>
      by_cases hl : s.ui.loading = true
      · simp [step, hl] at h
      · have hempty : s.inflight = [] := by
          by_contra hne
          exact hl (h1.mpr hne)
        by_cases hd : s.domPrompt = ""
        · simp [step, hl, hd] at h
        · simp only [step, hl, hd, Bool.false_eq_true, if_false, if_neg] at h
          cases hf : s.ui.formData.file with
          | none =>
              rw [hf] at h
              simp only [Option.some.injEq] at h
              subst h
              exact ⟨by simp [hempty], by simpa using h2, by simp⟩
          | some f =>
              rw [hf] at h
              simp only [Option.some.injEq] at h
              subst h
              exact ⟨by simp [hempty], by simp [hempty], by simp⟩
  | resolve r =>
      cases hq : s.inflight with
      | nil => simp [step, hq] at h
      | cons p rest =>
          have hrest : rest = [] := by
            rw [hq] at h2
            simpa using h2
          cases r with
          | ok t =>
              simp only [step, hq, Option.some.injEq] at h
              subst h
              exact ⟨by simp [hrest], by simp [hrest], by simp⟩
          | error e =>
              simp only [step, hq, Option.some.injEq] at h
              subst h
              exact ⟨by simp [hrest], by simp [hrest], by simp⟩

/-- Every reachable state satisfies the invariant. -/
theorem reachable_sysInv {s : Sys} (hs : Reachable s) : SysInv s := by
  induction hs with
  | refl => exact sysInv_initSys
  | tail _ hstep ih => exact sysInv_step ih hstep

/-! ## Concrete states used as witnesses and counterexamples -/

/-- A concrete selected file. -/
def cexFile : FileVal :=
  { name := "ingredients.jpg", type := "image/jpeg", bytes := [1, 2, 3] }

/-- A concrete remote that always resolves with the text "ok". -/
def remoteOk : MessageData → Except JsError String :=
  fun _ => Except.ok "ok"

/-- A concrete remote that always rejects with a fetch error. -/
def remoteErr : MessageData → Except JsError String :=
  fun _ => Except.error (JsError.errObj "TypeError" "Failed to fetch")

/-- After typing "hi" into the prompt input. -/
def sTyped : Sys :=
  { ui := { response := none, error := none, loading := false,
            formData := { file := none, prompt := "hi" } },
    domPrompt := "hi", inflight := [] }

/-- After additionally dropping `cexFile`. -/
def sFiled : Sys :=
  { ui := { response := none, error := none, loading := false,
            formData := { file := some cexFile, prompt := "hi" } },
    domPrompt := "hi", inflight := [] }

/-- After submitting: loading, one call outstanding. -/
def sLoading : Sys :=
  { ui := { response := none, error := none, loading := true,
            formData := { file := some cexFile, prompt := "hi" } },
    domPrompt := "hi", inflight := [mkPayload cexFile "hi"] }

/-- After the call resolves with the text "All good". -/
def sSuccess : Sys :=
  { ui := { response := some "All good", error := none, loading := false,
            formData := { file := some cexFile, prompt := "hi" } },
    domPrompt := "hi", inflight := [] }

/-- After clicking Clear in the success state: the form data is reset,
but the response text and the DOM prompt value survive. -/
def sCleared : Sys :=
  { ui := { response := some "All good", error := none, loading := false,
            formData := { file := none, prompt := "" } },
    domPrompt := "hi", inflight := [] }

/-- After re-submitting from `sCleared` (the DOM prompt is still "hi", so
constraint validation passes): the validation error is set while the
success text is still displayed. -/
def sBoth : Sys :=
  { ui := { response := some "All good", error := some "No file specified", loading := false,
            formData := { file := none, prompt := "" } },
    domPrompt := "hi", inflight := [] }

/-- After typing "hi" and clicking Clear: `formData.prompt` is empty, but
the DOM input still shows "hi". -/
def sDesync : Sys :=
  { ui := { response := none, error := none, loading := false,
            formData := { file := none, prompt := "" } },
    domPrompt := "hi", inflight := [] }

/-- After additionally dropping `cexFile` onto the desynchronised form. -/
def sDesyncFiled : Sys :=
  { ui := { response := none, error := none, loading := false,
            formData := { file := some cexFile, prompt := "" } },
    domPrompt := "hi", inflight := [] }

/-- After submitting the desynchronised form: a `sendMessage` call is
outstanding whose prompt is the empty string. -/
def sDesyncSubmitted : Sys :=
  { ui := { response := none, error := none, loading := true,
            formData := { file := some cexFile, prompt := "" } },
    domPrompt := "hi", inflight := [mkPayload cexFile ""] }

theorem reach_sTyped : Reachable sTyped :=
  Reachable.tail (e := Event.typePrompt "hi") Reachable.refl (by decide)

theorem reach_sFiled : Reachable sFiled :=
  Reachable.tail (e := Event.dropFile cexFile) reach_sTyped (by decide)

theorem reach_sLoading : Reachable sLoading :=
  Reachable.tail (e := Event.submit) reach_sFiled (by decide)

theorem reach_sSuccess : Reachable sSuccess :=
  Reachable.tail (e := Event.resolve (Except.ok "All good")) reach_sLoading (by decide)

theorem reach_sCleared : Reachable sCleared :=
  Reachable.tail (e := Event.clearClick) reach_sSuccess (by decide)

theorem reach_sBoth : Reachable sBoth :=
  Reachable.tail (e := Event.submit) reach_sCleared (by decide)

theorem reach_sDesync : Reachable sDesync :=
  Reachable.tail (e := Event.clearClick) reach_sTyped (by decide)

theorem reach_sDesyncFiled : Reachable sDesyncFiled :=
  Reachable.tail (e := Event.dropFile cexFile) reach_sDesync (by decide)

theorem reach_sDesyncSubmitted : Reachable sDesyncSubmitted :=
  Reachable.tail (e := Event.submit) reach_sDesyncFiled (by decide)

/-- A concrete idle component state with no file selected. -/
def cexIdle : UIState :=
  { response := none, error := none, loading := false,
    formData := { file := none, prompt := "hello" } }

/-- A concrete component state with `cexFile` selected and prompt "hi". -/
def cexReady : UIState :=
  { response := none, error := none, loading := false,
    formData := { file := some cexFile, prompt := "hi" } }

/-- A concrete component state still showing an old success text and an
old error message, with no file selected. -/
def cexStale : UIState :=
  { response := some "old success", error := some "old error", loading := false,
    formData := { file := none, prompt := "hello" } }

/-! ## Claims -/

/-- C1: for every submission in which no file is selected, the handler
issues no `sendMessage` call, and the error state afterwards is exactly
"No file specified". -/
theorem c1_no_file_no_call (remote : MessageData → Except JsError String) (s : UIState)
    (h : s.formData.file = none) :
    handlerCalls s.formData = [] ∧
    (handleProcessing remote s).error = some "No file specified" := by
  constructor
  · simp [handlerCalls, h]
  · simp [handleProcessing, handlerEffects, h, applyEff]

/-- C1 witness: the no-file submission on a concrete idle state. -/
theorem c1_no_file_no_call_witness :
    cexIdle.formData.file = none ∧
    (handlerCalls cexIdle.formData = [] ∧
     (handleProcessing remoteOk cexIdle).error = some "No file specified") :=
  ⟨rfl, c1_no_file_no_call remoteOk cexIdle rfl⟩

/-- C5: the base64 contents field of the composed payload decodes back to
exactly the selected file's original bytes. -/
theorem c5_payload_roundtrip (fd : FormData) (f : FileVal)
    (hf : fd.file = some f) (hb : ∀ b ∈ f.bytes, b < 256) :
    ∀ p ∈ handlerCalls fd, base64Decode p.file.contents = f.bytes := by
  intro p hp
  simp only [handlerCalls, hf, List.mem_singleton] at hp
  subst hp
  simpa [mkPayload, base64Decode, base64Encode] using decodeGroups_encodeGroups f.bytes hb

/-- C5 witness: round trip of the concrete three-byte file through the
composed payload. -/
theorem c5_payload_roundtrip_witness :
    ({ file := some cexFile, prompt := "hi" } : FormData).file = some cexFile ∧
    (∀ b ∈ cexFile.bytes, b < 256) ∧
    ∀ p ∈ handlerCalls { file := some cexFile, prompt := "hi" },
      base64Decode p.file.contents = cexFile.bytes :=
  ⟨rfl, by decide, c5_payload_roundtrip _ cexFile rfl (by decide)⟩

/-- C6: when the remote call fails with error E, the displayed error
message equals the JavaScript stringification of E, and the loading flag
is false after the handler completes. -/
theorem c6_failure_stringified (remote : MessageData → Except JsError String)
    (s : UIState) (f : FileVal) (e : JsError)
    (hf : s.formData.file = some f)
    (hr : remote (mkPayload f s.formData.prompt) = Except.error e) :
    displayedError (handleProcessing remote s) = some (jsErrorToString e) ∧
    (handleProcessing remote s).loading = false := by
  constructor
  · simp [handleProcessing, handlerEffects, hf, hr, displayedError, applyEff]
  · simp [handleProcessing, handlerEffects, hf, hr, applyEff]

/-- C6 witness: a concrete failing fetch surfaces "TypeError: Failed to
fetch" and resets loading. -/
theorem c6_failure_stringified_witness :
    cexReady.formData.file = some cexFile ∧
    remoteErr (mkPayload cexFile cexReady.formData.prompt)
      = Except.error (JsError.errObj "TypeError" "Failed to fetch") ∧
    (displayedError (handleProcessing remoteErr cexReady)
      = some (jsErrorToString (JsError.errObj "TypeError" "Failed to fetch")) ∧
     (handleProcessing remoteErr cexReady).loading = false) :=
  ⟨rfl, rfl, c6_failure_stringified remoteErr cexReady cexFile _ rfl rfl⟩

/-- C7: when the remote call resolves with text T, the response state is
set to exactly T, and the markdown source handed to the renderer is
exactly T. -/
theorem c7_success_exact_text (remote : MessageData → Except JsError String)
    (s : UIState) (f : FileVal) (t : String)
    (hf : s.formData.file = some f)
    (hr : remote (mkPayload f s.formData.prompt) = Except.ok t) :
    (handleProcessing remote s).response = some t ∧
    displayedMarkdownSource (handleProcessing remote s) = some t := by
  constructor
  · simp [handleProcessing, handlerEffects, hf, hr, applyEff]
  · simp [handleProcessing, handlerEffects, hf, hr, displayedMarkdownSource, applyEff]

/-- C7 witness: a concrete successful resolution with the text "ok". -/
theorem c7_success_exact_text_witness :
    cexReady.formData.file = some cexFile ∧
    remoteOk (mkPayload cexFile cexReady.formData.prompt) = Except.ok "ok" ∧
    ((handleProcessing remoteOk cexReady).response = some "ok" ∧
     displayedMarkdownSource (handleProcessing remoteOk cexReady) = some "ok") :=
  ⟨rfl, rfl, c7_success_exact_text remoteOk cexReady cexFile "ok" rfl rfl⟩

/-- C10: on the no-file validation path the handler performs exactly the
setter sequence setLoading(true), setError(null), setError("No file
specified"), setLoading(false) — so any prior error is cleared before the
new one is set, and the finally block resets loading even on the early
return — while the form data and the response state are left unchanged. -/
theorem c10_no_file_frame (remote : MessageData → Except JsError String) (s : UIState)
    (h : s.formData.file = none) :
    handlerEffects remote s.formData =
      [Eff.setLoading true, Eff.setError none,
       Eff.setError (some "No file specified"), Eff.setLoading false] ∧
    (handleProcessing remote s).formData = s.formData ∧
    (handleProcessing remote s).response = s.response ∧
    (handleProcessing remote s).error = some "No file specified" ∧
    (handleProcessing remote s).loading = false := by
  refine ⟨by simp [handlerEffects, h], ?_, ?_, ?_, ?_⟩ <;>
    simp [handleProcessing, handlerEffects, h, applyEff]

/-- C10 witness: the no-file path on a state that still displays an old
success text and an old error message. -/
theorem c10_no_file_frame_witness :
    cexStale.formData.file = none ∧
    (handleProcessing remoteOk cexStale).response = some "old success" ∧
    (handleProcessing remoteOk cexStale).error = some "No file specified" :=
  ⟨rfl,
   (c10_no_file_frame remoteOk cexStale rfl).2.2.1,
   (c10_no_file_frame remoteOk cexStale rfl).2.2.2.1⟩

/-- C2 counterexample: a reachable state in which a non-null response and
a non-null error are active simultaneously — submit a file and let it
succeed, click Clear (which resets the form data but not the DOM prompt
text or the response), then submit again with no file. -/
theorem c2_counterexample :
    Reachable sBoth ∧ sBoth.ui.response ≠ none ∧ sBoth.ui.error ≠ none :=
  ⟨reach_sBoth, by decide, by decide⟩

/-- C2 (amended): the three fields do not make the four response states
mutually exclusive — a retained success text can coexist with a later
error or with loading — but the Loading flag and a Failure message are
never active together: in every reachable state, loading implies a null
error. -/
theorem c2_loading_excludes_error (s : Sys) (hs : Reachable s)
    (hl : s.ui.loading = true) :
    s.ui.error = none :=
  (reachable_sysInv hs).2.2 hl

/-- C2 witness: the amended exclusion at the concrete loading state. -/
theorem c2_loading_excludes_error_witness :
    Reachable sLoading ∧ sLoading.ui.loading = true ∧ sLoading.ui.error = none :=
  ⟨reach_sLoading, rfl, c2_loading_excludes_error sLoading reach_sLoading rfl⟩

/-- C3 counterexample: from the reachable success state, the Clear action
leaves the success text active — the response state does not return to
Idle. -/
theorem c3_counterexample :
    Reachable sSuccess ∧ step sSuccess Event.clearClick = some sCleared ∧
    sCleared.ui.response = some "All good" :=
  ⟨reach_sSuccess, by decide, rfl⟩

/-- C3 (amended): the Clear action resets only the form fields (prompt to
empty, file to absent); it leaves the response and error fields unchanged,
so a Success text or Failure message remains active after Clear. -/
theorem c3_clear_keeps_response (s s' : Sys)
    (h : step s Event.clearClick = some s') :
    s'.ui.formData = { file := none, prompt := "" } ∧
    s'.ui.response = s.ui.response ∧ s'.ui.error = s.ui.error := by
  simp only [step, Option.some.injEq] at h
  subst h
  exact ⟨rfl, rfl, rfl⟩

/-- C3 witness: the amended statement at the concrete success state. -/
theorem c3_clear_keeps_response_witness :
    step sSuccess Event.clearClick = some sCleared ∧
    (sCleared.ui.formData = { file := none, prompt := "" } ∧
     sCleared.ui.response = sSuccess.ui.response ∧
     sCleared.ui.error = sSuccess.ui.error) :=
  ⟨by decide, c3_clear_keeps_response sSuccess sCleared (by decide)⟩

/-- C4 counterexample: a reachable state in which a `sendMessage` call has
been issued whose prompt is the empty string — type a prompt, click Clear
(the DOM input keeps its text while `formData.prompt` becomes empty), drop
a file, and submit. -/
theorem c4_counterexample :
    Reachable sDesyncSubmitted ∧
    sDesyncSubmitted.inflight = [mkPayload cexFile ""] ∧
    (mkPayload cexFile "").prompt = "" :=
  ⟨reach_sDesyncSubmitted, rfl, rfl⟩

/-- C4 (amended): whenever a step issues a new `sendMessage` call, a file
is selected, the handler is not already loading, and the DOM prompt value
gating the required-field validation is non-empty; `formData.prompt`
itself can nevertheless be empty, because the Clear action empties it
without clearing the uncontrolled DOM input. -/
theorem c4_call_requires_file (s s' : Sys) (e : Event)
    (h : step s e = some s') (hgrow : s.inflight.length < s'.inflight.length) :
    s.ui.formData.file ≠ none ∧ s.domPrompt ≠ "" ∧ s.ui.loading = false := by
  cases e with
  | typePrompt t =>
      by_cases hl : s.ui.loading = true
      · simp [step, hl] at h
      · simp only [step, hl, Bool.false_eq_true, if_false, if_neg, Option.some.injEq] at h
        subst h
        simp at hgrow
  | dropFile f =>
      by_cases hl : s.ui.loading = true
      · simp [step, hl] at h
      · simp only [step, hl, Bool.false_eq_true, if_false, if_neg, Option.some.injEq] at h
        subst h
        simp at hgrow
  | clearClick =>
      simp only [step, Option.some.injEq] at h
      subst h
      simp at hgrow
  | submit =>
      by_cases hl : s.ui.loading = true
      · simp [step, hl] at h
      · by_cases hd : s.domPrompt = ""
        · simp [step, hl, hd] at h
        · simp only [step, hl, hd, Bool.false_eq_true, if_false, if_neg] at h
          cases hf : s.ui.formData.file with
          | none =>
              rw [hf] at h
              simp only [Option.some.injEq] at h
              subst h
              simp at hgrow
          | some f =>
              exact ⟨by simp [hf], hd, by simpa using hl⟩
  | resolve r =>
      cases hq : s.inflight with
      | nil => simp [step, hq] at h
      | cons p rest =>
          cases r with
          | ok t =>
              simp only [step, hq, Option.some.injEq] at h
              subst h
              simp [hq] at hgrow
          | error e =>
              simp only [step, hq, Option.some.injEq] at h
              subst h
              simp [hq] at hgrow

/-- C4 witness: the amended statement at the concrete submit step that
issues a call. -/
theorem c4_call_requires_file_witness :
    step sFiled Event.submit = some sLoading ∧
    sFiled.inflight.length < sLoading.inflight.length ∧
    (sFiled.ui.formData.file ≠ none ∧ sFiled.domPrompt ≠ "" ∧
     sFiled.ui.loading = false) :=
  ⟨by decide, by decide,
   c4_call_requires_file sFiled sLoading Event.submit (by decide) (by decide)⟩

/-- C8: the Clear action, performed in any state whatsoever, resets the
form state to an empty prompt and an absent file. -/
theorem c8_clear_resets_form (s : Sys) :
    ∃ s', step s Event.clearClick = some s' ∧
      s'.ui.formData.prompt = "" ∧ s'.ui.formData.file = none :=
  ⟨_, rfl, rfl, rfl⟩

/-- C9: in every reachable state, while the loading flag is true the
submit control is disabled and the submit event cannot fire, and at most
one `sendMessage` call is outstanding. -/
theorem c9_loading_blocks_submit (s : Sys) (hs : Reachable s) :
    (s.ui.loading = true → submitDisabled s = true ∧ step s Event.submit = none) ∧
    s.inflight.length ≤ 1 := by
  obtain ⟨h1, h2, h3⟩ := reachable_sysInv hs
  exact ⟨fun hl => ⟨hl, by simp [step, hl]⟩, h2⟩

/-- C9 witness: at the concrete in-flight state, submission is blocked and
exactly one call is outstanding. -/
theorem c9_loading_blocks_submit_witness :
    Reachable sLoading ∧ sLoading.ui.loading = true ∧
    (submitDisabled sLoading = true ∧ step sLoading Event.submit = none) ∧
    sLoading.inflight.length ≤ 1 :=
  ⟨reach_sLoading, rfl,
   (c9_loading_blocks_submit sLoading reach_sLoading).1 rfl,
   (c9_loading_blocks_submit sLoading reach_sLoading).2⟩
